import Mathlib

/-!
Verification development for the completion-detection and result-extraction
core of `scripts/deep_research.py` (with constants from `scripts/config.py`).

The embedding models:
* the Locator Resolver `find_element` / `find_element_quick` (lines 38-61),
* the Completion Oracle: the polling loop of `run_deep_research`
  (lines 388-482), and
* the Extraction Chain: strategies 1-5 and the final outcome construction
  (lines 484-590).

Page interaction is modelled by the data each query returns at a given tick:
`none` stands for a query that raised (the source swallows such exceptions),
`some` for a value the query returned.  Time is idealized: the k-th execution
of the loop body observes `elapsed = interval * (k - 1)` seconds, matching the
source's fixed `time.sleep(DEEP_RESEARCH_POLL_INTERVAL)` between ticks.
-/

set_option maxRecDepth 40000

namespace DeepResearch

/-- Constant `DEEP_RESEARCH_TIMEOUT_SECONDS` from config.py (line 47). -/
def DEEP_RESEARCH_TIMEOUT_SECONDS : Nat := 600

/-- Constant `DEEP_RESEARCH_POLL_INTERVAL` from config.py (line 48). -/
def DEEP_RESEARCH_POLL_INTERVAL : Nat := 10

/-! ## Locator Resolver (deep_research.py lines 38-61) -/

/-- Embeds `find_element` (lines 38-48).  `page sel` is the element returned by
`page.wait_for_selector(sel, state="visible")`: `some e` when the wait produced
the visible element `e`, `none` when it timed out or raised (the source
swallows the exception and moves to the next selector).  The Python function
returns `(None, None)` on exhaustion, modelled by `none`. -/
def find_element {α : Type} (page : String → Option α) :
    List String → Option (α × String)
  | [] => none
  | sel :: rest =>
    match page sel with
    | some e => some (e, sel)
    | none => find_element page rest

/-- Embeds `find_element_quick` (lines 51-61).  `query sel` models
`page.query_selector(sel)`: `none` when the call raised, `some none` when it
returned a falsy value, `some (some e)` when it returned element `e`.
`is_visible e` models `e.is_visible()`: `none` when that call raised. -/
def find_element_quick {α : Type} (query : String → Option (Option α))
    (is_visible : α → Option Bool) : List String → Option (α × String)
  | [] => none
  | sel :: rest =>
    match query sel with
    | some (some e) =>
      match is_visible e with
      | some true => some (e, sel)
      | _ => find_element_quick query is_visible rest
    | _ => find_element_quick query is_visible rest

/-- The condition under which one selector succeeds inside
`find_element_quick`: the query returned an element and `is_visible` returned
`True`. -/
def quickHit {α : Type} (query : String → Option (Option α))
    (is_visible : α → Option Bool) (sel : String) : Option α :=
  match query sel with
  | some (some e) =>
    match is_visible e with
    | some true => some e
    | _ => none
  | _ => none

/-! ## Completion Oracle: the poll loop (lines 388-482) -/

/-- The signals one execution of the loop body can observe.
`countSample` models the `query_selector_all` source count (lines 403-407):
`none` when the query raised.  `loaderResults` models, per configured loading
selector (lines 421-428), the outcome of `query_selector` + `is_visible`:
`none` when the tick's query raised, `some b` with `b` true exactly when a
visible loader was found.  `spinnerResult` models the spinner scan
(lines 432-442): `none` when it raised, otherwise the visibility of each
matched element.  `markerResult` models the "Deep Research report" source scan
(lines 446-449): `none` when it raised, otherwise the visibility of each
matched element. -/
structure Tick where
  countSample : Option Nat
  loaderResults : List (Option Bool)
  spinnerResult : Option (List Bool)
  markerResult : Option (List Bool)
deriving Repr, DecidableEq

/-- The loop's mutable state: `last_sources_count` and `stable_count`
(lines 391-392). -/
structure LoopState where
  last_sources_count : Nat
  stable_count : Nat
deriving Repr, DecidableEq

/-- Lines 401-417: update `last_sources_count` / `stable_count` from the
sampled source count; a raised query (`none`) leaves both unchanged
(`except Exception: pass`). -/
def countUpdate (s : LoopState) (sample : Option Nat) : LoopState :=
  match sample with
  | none => s
  | some c =>
    if c ≠ s.last_sources_count then ⟨c, 0⟩
    else ⟨s.last_sources_count, s.stable_count + 1⟩

/-- Lines 419-442: `is_loading` is true when a configured loading selector
found a visible element, or (failing that) when the spinner scan found a
visible element; exceptions are swallowed and contribute nothing. -/
def sampleLoading (loaders : List (Option Bool)) (spinners : Option (List Bool)) :
    Bool :=
  if loaders.any (fun r => r == some true) then true
  else
    match spinners with
    | none => false
    | some vis => vis.any (fun b => b)

/-- Lines 444-458: the completion-marker check fires when the report-source
query returned a list containing a visible element. -/
def markerSeen (marker : Option (List Bool)) : Bool :=
  match marker with
  | none => false
  | some vis => vis.any (fun b => b)

/-- Lines 401-458: one tick's state update.  Returns the updated loop state and
the `is_loading` flag entering the completion checks.  A visible completion
marker forces `is_loading = False` and `stable_count = 10` (lines 454-455). -/
def tickUpdate (s : LoopState) (t : Tick) : LoopState × Bool :=
  let s1 := countUpdate s t.countSample
  let is_loading := sampleLoading t.loaderResults t.spinnerResult
  if markerSeen t.markerResult then (⟨s1.last_sources_count, 10⟩, false)
  else (s1, is_loading)

/-- Lines 467-471: the primary completion rule,
`stable_count >= 5 and not is_loading and new_sources > 0` where
`new_sources = last_sources_count - initial_source_count` (Python int
subtraction, hence `Int` here). -/
def primaryRule (initial_source_count : Nat) (s : LoopState) (is_loading : Bool) :
    Bool :=
  decide (5 ≤ s.stable_count) && !is_loading &&
    decide (0 < (s.last_sources_count : Int) - (initial_source_count : Int))

/-- Lines 473-477: the fallback completion rule,
`stable_count >= 12 and not is_loading and elapsed > 60`. -/
def fallbackRule (elapsed : Nat) (s : LoopState) (is_loading : Bool) : Bool :=
  decide (12 ≤ s.stable_count) && !is_loading && decide (60 < elapsed)

/-- One full execution of the loop body at a given `elapsed` time: updated
state, plus whether the loop `break`s (either completion rule fired). -/
def tickStep (initial_source_count elapsed : Nat) (s : LoopState) (t : Tick) :
    LoopState × Bool :=
  let (s1, is_loading) := tickUpdate s t
  (s1, primaryRule initial_source_count s1 is_loading ||
       fallbackRule elapsed s1 is_loading)

/-- Result of the poll loop: whether it exited through a completion `break`
(line 471 or 477), the index of the loop-body execution at which it exited
(for a deadline exit: the first tick whose `while` guard failed), and the
final loop state. -/
structure LoopResult where
  completed : Bool
  exitTick : Nat
  state : LoopState
deriving Repr, DecidableEq

/-- The `while time.time() < deadline` loop (lines 396-479), with idealized
time `elapsed = interval * (k - 1)` at the k-th tick.  `fuel` is a structural
bound only; `pollLoop` supplies enough fuel that it is never exhausted when
`1 ≤ interval`. -/
def pollAux (timeout interval initial_source_count : Nat) (ticks : Nat → Tick) :
    Nat → Nat → LoopState → LoopResult
  | 0, k, s => ⟨false, k, s⟩
  | fuel + 1, k, s =>
    if interval * (k - 1) < timeout then
      if (tickStep initial_source_count (interval * (k - 1)) s (ticks k)).2 then
        ⟨true, k, (tickStep initial_source_count (interval * (k - 1)) s (ticks k)).1⟩
      else
        pollAux timeout interval initial_source_count ticks fuel (k + 1)
          (tickStep initial_source_count (interval * (k - 1)) s (ticks k)).1
    else ⟨false, k, s⟩

/-- The poll loop started as in lines 388-396: the baseline
`initial_source_count` is captured at entry, `last_sources_count` starts at
the baseline and `stable_count` at 0, and ticks are numbered from 1. -/
def pollLoop (timeout interval initial_source_count : Nat) (ticks : Nat → Tick) :
    LoopResult :=
  pollAux timeout interval initial_source_count ticks (timeout + 1) 1
    ⟨initial_source_count, 0⟩

/-- State reached after executing the single tick `k` from state `s`. -/
def stepState (initial_source_count interval : Nat) (ticks : Nat → Tick)
    (k : Nat) (s : LoopState) : LoopState :=
  (tickStep initial_source_count (interval * (k - 1)) s (ticks k)).1

/-- Whether tick `k`, executed from state `s`, breaks the loop. -/
def stepBreak (initial_source_count interval : Nat) (ticks : Nat → Tick)
    (k : Nat) (s : LoopState) : Bool :=
  (tickStep initial_source_count (interval * (k - 1)) s (ticks k)).2

/-- State reached after executing `n` consecutive ticks `k, k+1, ...` from
state `s` (ignoring breaks; used to characterize break-free runs). -/
def iterState (initial_source_count interval : Nat) (ticks : Nat → Tick) :
    Nat → Nat → LoopState → LoopState
  | 0, _, s => s
  | n + 1, k, s =>
    iterState initial_source_count interval ticks n (k + 1)
      (stepState initial_source_count interval ticks k s)

/-! ## Extraction Chain (lines 484-590) -/

/-- One rendered element as the extraction code sees it: its `is_visible()`
result and its `inner_text().strip()` result. -/
structure VisElem where
  visible : Bool
  text : String
deriving Repr, DecidableEq

/-- What the page yields to the extraction code.  For the per-selector lists
(`chat`, `reports`, `containers`), each entry is the outcome of querying one
selector of the corresponding list in the source, in order; `none` means the
query (or a read on its results) raised, and the source swallows it.
`clickOk` is whether the strategy-3 click on the "Deep Research report" link
succeeded (lines 535-538); `sources_panel` is the outcome of
`page.query_selector('[class*="source"]')` plus the stripped text read
(lines 559-561); `bodyText` is `page.inner_text("body")` (line 571), `none`
when it raised. -/
structure PageX where
  chat : List (Option (List VisElem))
  reports : List (Option (List VisElem))
  clickOk : Bool
  containers : List (Option (Option VisElem))
  sources_panel : Option (Option String)
  bodyText : Option String
deriving Repr, DecidableEq

/-- Python truthiness of `report_text`: `None` and the empty string are falsy
(the `if not report_text:` guards at lines 518, 532, 556, 568, 576). -/
def truthy : Option String → Bool
  | none => false
  | some s => decide (s ≠ "")

/-- The texts a strategy-1/2 selector block collects: stripped inner text of
each visible element whose text is longer than `threshold` (lines 505-509 with
threshold 100; line 523 with threshold 50). -/
def qualTexts (threshold : Nat) (elems : List VisElem) : List String :=
  elems.filterMap fun e =>
    if e.visible = true ∧ threshold < e.text.length then some e.text else none

/-- Python's `max(texts, key=len)` (line 511): the first text of maximal
length. -/
def maxByLen (ts : List String) : String :=
  match ts with
  | [] => ""
  | t :: rest => rest.foldl (fun acc x => if acc.length < x.length then x else acc) t

/-- Strategy 1 (lines 487-515): first chat selector whose visible elements
include a text longer than 100 characters yields the longest such text. -/
def strategy1 : List (Option (List VisElem)) → Option String
  | [] => none
  | none :: rest => strategy1 rest
  | some elems :: rest =>
    match qualTexts 100 elems with
    | [] => strategy1 rest
    | t :: ts => some (maxByLen (t :: ts))

/-- Strategy 2 (lines 517-529): first report selector whose visible elements
include texts longer than 50 characters yields those texts joined by a blank
line. -/
def strategy2 : List (Option (List VisElem)) → Option String
  | [] => none
  | none :: rest => strategy2 rest
  | some elems :: rest =>
    match qualTexts 50 elems with
    | [] => strategy2 rest
    | t :: ts => some (String.intercalate (String.mk [Char.ofNat 10, Char.ofNat 10]) (t :: ts))

/-- The strategy-3 re-scan after the click (lines 541-551): first container
selector with a visible element whose text is longer than 200 characters. -/
def s3scan : List (Option (Option VisElem)) → Option String
  | [] => none
  | none :: rest => s3scan rest
  | some none :: rest => s3scan rest
  | some (some e) :: rest =>
    if e.visible = true ∧ 200 < e.text.length then some e.text else s3scan rest

/-- Strategy 3 (lines 531-553): click the report link; if the click path
raised, the whole strategy contributes nothing (`except Exception: pass`). -/
def strategy3 (clickOk : Bool) (containers : List (Option (Option VisElem))) :
    Option String :=
  if clickOk then s3scan containers else none

/-- Strategy 4 (lines 555-565): read the first `[class*="source"]` element's
stripped text.  The source assigns `report_text` before checking the
50-character threshold (the check at line 562 only gates a log line), so any
returned text is kept. -/
def strategy4 (sources_panel : Option (Option String)) : Option String :=
  match sources_panel with
  | some (some txt) => some txt
  | _ => none

/-- The chaining of one strategy after the previous ones: each strategy runs
only under `if not report_text:` and leaves `report_text` unchanged when it
finds nothing. -/
def orElseTruthy (r cand : Option String) : Option String :=
  if truthy r then r
  else
    match cand with
    | some t => some t
    | none => r

/-- The full Extraction Chain (lines 487-574): strategies 1-5 in order, each
gated on the previous result being falsy.  Strategy 5 (lines 567-574) is the
raw body text, with no length threshold. -/
def extractReport (p : PageX) : Option String :=
  let r := strategy1 p.chat
  let r := orElseTruthy r (strategy2 p.reports)
  let r := orElseTruthy r (strategy3 p.clickOk p.containers)
  let r := orElseTruthy r (strategy4 p.sources_panel)
  let r := orElseTruthy r p.bodyText
  r

/-- The dictionary `run_deep_research` returns (lines 576-590).  Keys absent
from a branch are `none`. -/
structure ResearchOutcome where
  success : Bool
  sources_count : Int
  elapsed_seconds : Nat
  total_sources : Option Nat
  report : Option String
  error : Option String
deriving Repr, DecidableEq

/-- Lines 481-590: compute `new_sources` and `total_elapsed` from the loop
data, run the Extraction Chain once, and build the outcome.  A falsy
`report_text` yields the failure dictionary of lines 576-582, a truthy one the
success dictionary of lines 584-590. -/
def captureResults (initial_source_count last_sources_count total_elapsed : Nat)
    (p : PageX) : ResearchOutcome :=
  let new_sources : Int :=
    (last_sources_count : Int) - (initial_source_count : Int)
  let r := extractReport p
  if truthy r then
    { success := true
      sources_count := new_sources
      elapsed_seconds := total_elapsed
      total_sources := some last_sources_count
      report := r
      error := none }
  else
    { success := false
      sources_count := new_sources
      elapsed_seconds := total_elapsed
      total_sources := none
      report := none
      error := some "Could not capture research results" }

/-- The completion-wait and capture portion of `run_deep_research`
(lines 385-590): run the poll loop, then capture results from the final page
state `p`. -/
def run_deep_research (timeout interval initial_source_count : Nat)
    (ticks : Nat → Tick) (p : PageX) : ResearchOutcome :=
  let r := pollLoop timeout interval initial_source_count ticks
  captureResults initial_source_count r.state.last_sources_count
    (interval * (r.exitTick - 1)) p

/-! ## Concrete sample streams and page states used by the theorems -/

/-- A stream whose source count never changes from `b`, with no loading
indicator, no spinner and no completion marker, and no sampling errors. -/
def flatStream (b : Nat) : Nat → Tick := fun _ => ⟨some b, [], some [], some []⟩

/-- A stream whose source count is `b` before tick `c` and `b + d` from tick
`c` on (one change, then constant), never busy, no marker. -/
def onceStream (c b d : Nat) : Nat → Tick :=
  fun k => ⟨some (if k < c then b else b + d), [], some [], some []⟩

/-- A stream that is busy at every tick (a visible loading indicator), with a
constant source count and no marker. -/
def busyTicks : Nat → Tick := fun _ => ⟨some 0, [some true], some [], some []⟩

/-- A stream whose source count drops from the baseline 5 to 3 at the first
tick and stays there, never busy, no marker. -/
def dropStream : Nat → Tick := fun _ => ⟨some 3, [], some [], some []⟩

/-- A single tick at which the completion marker is visible, the count equals
the baseline 5 (zero new items), and nothing is loading. -/
def markerTick : Tick := ⟨some 5, [], some [], some [true]⟩

/-- A 101-character text, just above strategy 1's threshold. -/
def chatTextShort : String := String.mk (List.replicate 101 'a')

/-- A 500-character text. -/
def chatTextLong : String := String.mk (List.replicate 500 'b')

/-- A chat-area page state where the first chat selector matches one visible
element with a 101-character text and the second matches one visible element
with a 500-character text (five selectors, as in lines 492-498). -/
def twoSelectorChat : List (Option (List VisElem)) :=
  [some [⟨true, chatTextShort⟩], some [⟨true, chatTextLong⟩],
   some [], some [], some []]

/-- A 50-character text, at (not above) strategy 4's threshold. -/
def fiftyChars : String := String.mk (List.replicate 50 'x')

/-- A 300-character body text. -/
def longBody : String := String.mk (List.replicate 300 'y')

/-- A page on which strategies 1-3 find nothing, the sources panel yields a
50-character text, and the body text is long. -/
def shortPanelPage : PageX :=
  ⟨List.replicate 5 (some []), List.replicate 5 (some []), false,
   List.replicate 5 (some none), some (some fiftyChars), some longBody⟩

/-- A page on which strategies 1-4 find nothing and the body text is empty. -/
def emptyPage : PageX :=
  ⟨List.replicate 5 (some []), List.replicate 5 (some []), false,
   List.replicate 5 (some none), some none, some ""⟩

/-- A page on which strategies 1-4 find nothing and the body text is the
300-character `longBody`. -/
def reportPage : PageX :=
  ⟨List.replicate 5 (some []), List.replicate 5 (some []), false,
   List.replicate 5 (some none), some none, some longBody⟩

/-- Concrete page function for the Locator Resolver: only selector "b"
resolves to a visible element. -/
def pageW : String → Option Nat := fun s => if s = "b" then some 1 else none

/-- Concrete query function for `find_element_quick`: selector "b" returns an
element, selector "a" returns a falsy value, anything else raises. -/
def queryW : String → Option (Option Nat) :=
  fun s => if s = "b" then some (some 2) else if s = "a" then some none else none

/-- Concrete visibility function: every element reports visible. -/
def visW : Nat → Option Bool := fun _ => some true

/-! ## Loop lemmas -/

lemma pollAux_succ (timeout interval initial : Nat) (ticks : Nat → Tick)
    (fuel k : Nat) (s : LoopState) :
    pollAux timeout interval initial ticks (fuel + 1) k s =
      if interval * (k - 1) < timeout then
        if stepBreak initial interval ticks k s then
          ⟨true, k, stepState initial interval ticks k s⟩
        else
          pollAux timeout interval initial ticks fuel (k + 1)
            (stepState initial interval ticks k s)
      else ⟨false, k, s⟩ := rfl

lemma iterState_succ (initial interval : Nat) (ticks : Nat → Tick) :
    ∀ (n k : Nat) (s : LoopState),
      iterState initial interval ticks (n + 1) k s =
        stepState initial interval ticks (k + n)
          (iterState initial interval ticks n k s) := by
  intro n
  induction n with
  | zero => intro k s; rfl
  | succ m ih =>
    intro k s
    have h1 : iterState initial interval ticks (m + 1 + 1) k s =
        iterState initial interval ticks (m + 1) (k + 1)
          (stepState initial interval ticks k s) := rfl
    rw [h1, ih]
    have h2 : iterState initial interval ticks (m + 1) k s =
        iterState initial interval ticks m (k + 1)
          (stepState initial interval ticks k s) := rfl
    rw [h2]
    have h3 : k + 1 + m = k + (m + 1) := by omega
    rw [h3]

lemma pollAux_skip (timeout interval initial : Nat) (ticks : Nat → Tick) :
    ∀ (n fuel k : Nat) (s : LoopState),
      (∀ j, j < n → interval * (k + j - 1) < timeout) →
      (∀ j, j < n →
        stepBreak initial interval ticks (k + j)
          (iterState initial interval ticks j k s) = false) →
      pollAux timeout interval initial ticks (n + fuel) k s =
        pollAux timeout interval initial ticks fuel (k + n)
          (iterState initial interval ticks n k s) := by
  intro n
  induction n with
  | zero =>
    intro fuel k s _ _
    rw [Nat.zero_add]
    rfl
  | succ m ih =>
    intro fuel k s hdl hbr
    have hd0 : interval * (k - 1) < timeout := by
      have h := hdl 0 (Nat.succ_pos m); simpa using h
    have hb0 : stepBreak initial interval ticks k s = false := by
      have h := hbr 0 (Nat.succ_pos m); simpa [iterState] using h
    have hstep : (m + 1) + fuel = (m + fuel) + 1 := by omega
    rw [hstep, pollAux_succ, if_pos hd0, hb0, if_neg (by simp)]
    have harg : k + (m + 1) = (k + 1) + m := by omega
    have hit : iterState initial interval ticks (m + 1) k s =
        iterState initial interval ticks m (k + 1)
          (stepState initial interval ticks k s) := rfl
    rw [harg, hit]
    refine ih fuel (k + 1) (stepState initial interval ticks k s) ?_ ?_
    · intro j hj
      have h := hdl (j + 1) (by omega)
      have e : k + (j + 1) = (k + 1) + j := by omega
      rwa [e] at h
    · intro j hj
      have h := hbr (j + 1) (by omega)
      have e : k + (j + 1) = (k + 1) + j := by omega
      have e2 : iterState initial interval ticks (j + 1) k s =
          iterState initial interval ticks j (k + 1)
            (stepState initial interval ticks k s) := rfl
      rwa [e, e2] at h

lemma pollAux_exit (timeout interval initial : Nat) (ticks : Nat → Tick) :
    ∀ (fuel k : Nat) (s : LoopState), 1 ≤ k →
      timeout ≤ interval * (k - 1 + fuel) →
      (pollAux timeout interval initial ticks fuel k s).completed = false →
      timeout ≤
        interval * ((pollAux timeout interval initial ticks fuel k s).exitTick - 1) := by
  intro fuel
  induction fuel with
  | zero =>
    intro k s _ hf _
    simpa [pollAux] using hf
  | succ m ih =>
    intro k s hk hf hc
    rw [pollAux_succ] at hc ⊢
    by_cases hdl : interval * (k - 1) < timeout
    · rw [if_pos hdl] at hc ⊢
      by_cases hb : stepBreak initial interval ticks k s = true
      · rw [if_pos hb] at hc
        simp at hc
      · rw [if_neg hb] at hc ⊢
        refine ih (k + 1) _ (by omega) ?_ hc
        have e : k + 1 - 1 + m = k - 1 + (m + 1) := by omega
        rw [e]
        exact hf
    · rw [if_neg hdl] at hc ⊢
      show timeout ≤ interval * (k - 1)
      omega

/-! ## Tick evaluation lemmas -/

lemma quiet_tickStep (initial elapsed L m : Nat) :
    tickStep initial elapsed ⟨L, m⟩ ⟨some L, [], some [], some []⟩ =
      (⟨L, m + 1⟩,
        (decide (5 ≤ m + 1) && decide (0 < (L : Int) - (initial : Int))) ||
          (decide (12 ≤ m + 1) && decide (60 < elapsed))) := by
  simp [tickStep, tickUpdate, countUpdate, sampleLoading, markerSeen,
    primaryRule, fallbackRule]

lemma change_tickStep (initial elapsed L C m : Nat) (hne : C ≠ L) :
    tickStep initial elapsed ⟨L, m⟩ ⟨some C, [], some [], some []⟩ =
      (⟨C, 0⟩, false) := by
  simp [tickStep, tickUpdate, countUpdate, hne, sampleLoading, markerSeen,
    primaryRule, fallbackRule]

/-! ## Stream characterizations -/

lemma flat_iterState (b : Nat) :
    ∀ j, iterState b 10 (flatStream b) j 1 ⟨b, 0⟩ = ⟨b, j⟩ := by
  intro j
  induction j with
  | zero => rfl
  | succ m ih =>
    rw [iterState_succ, ih]
    show (tickStep b (10 * (1 + m - 1)) ⟨b, m⟩ (flatStream b (1 + m))).1 = ⟨b, m + 1⟩
    rw [show flatStream b (1 + m) = ⟨some b, [], some [], some []⟩ from rfl,
       quiet_tickStep]

lemma once_iterState (c b d : Nat) (hc1 : 1 ≤ c) (hd : 1 ≤ d) :
    ∀ j : Nat,
      iterState b 10 (onceStream c b d) j 1 ⟨b, 0⟩ =
        if j < c then ⟨b, j⟩ else ⟨b + d, j - c⟩ := by
  intro j
  induction j with
  | zero => simp [iterState, show 0 < c from by omega]
  | succ m ih =>
    rw [iterState_succ, ih]
    by_cases h1 : m + 1 < c
    · rw [if_pos (by omega : m < c), if_pos h1]
      show (tickStep b (10 * (1 + m - 1)) ⟨b, m⟩ (onceStream c b d (1 + m))).1 =
        ⟨b, m + 1⟩
      rw [show onceStream c b d (1 + m) = ⟨some b, [], some [], some []⟩ from by
            simp [onceStream, show 1 + m < c from by omega],
         quiet_tickStep]
    · by_cases h2 : m + 1 = c
      · rw [if_pos (by omega : m < c), if_neg h1]
        show (tickStep b (10 * (1 + m - 1)) ⟨b, m⟩ (onceStream c b d (1 + m))).1 =
          ⟨b + d, m + 1 - c⟩
        rw [show onceStream c b d (1 + m) = ⟨some (b + d), [], some [], some []⟩ from by
              simp [onceStream, show ¬(1 + m < c) from by omega],
           change_tickStep b (10 * (1 + m - 1)) b (b + d) m (by omega)]
        have : m + 1 - c = 0 := by omega
        rw [this]
      · rw [if_neg (by omega : ¬(m < c)), if_neg h1]
        show (tickStep b (10 * (1 + m - 1)) ⟨b + d, m - c⟩ (onceStream c b d (1 + m))).1 =
          ⟨b + d, m + 1 - c⟩
        rw [show onceStream c b d (1 + m) = ⟨some (b + d), [], some [], some []⟩ from by
              simp [onceStream, show ¬(1 + m < c) from by omega],
           quiet_tickStep]
        have : m - c + 1 = m + 1 - c := by omega
        rw [this]

lemma once_no_break (c b d : Nat) (hc1 : 1 ≤ c) (hc : c ≤ 12) (hd : 1 ≤ d) :
    ∀ j, j < c + 4 →
      stepBreak b 10 (onceStream c b d) (1 + j)
        (iterState b 10 (onceStream c b d) j 1 ⟨b, 0⟩) = false := by
  intro j hj
  rw [show (1 : Nat) + j = j + 1 from by omega]
  rw [once_iterState c b d hc1 hd j]
  by_cases h1 : j + 1 < c
  · rw [if_pos (by omega : j < c)]
    show (tickStep b (10 * (j + 1 - 1)) ⟨b, j⟩ (onceStream c b d (j + 1))).2 = false
    rw [show onceStream c b d (j + 1) = ⟨some b, [], some [], some []⟩ from by
          simp [onceStream, h1],
       quiet_tickStep]
    simp [show ¬(12 ≤ j + 1) from by omega]
  · by_cases h2 : j + 1 = c
    · rw [if_pos (by omega : j < c)]
      show (tickStep b (10 * (j + 1 - 1)) ⟨b, j⟩ (onceStream c b d (j + 1))).2 = false
      rw [show onceStream c b d (j + 1) = ⟨some (b + d), [], some [], some []⟩ from by
            simp [onceStream, show ¬(j + 1 < c) from by omega],
         change_tickStep b (10 * (j + 1 - 1)) b (b + d) j (by omega)]
    · rw [if_neg (by omega : ¬(j < c))]
      show (tickStep b (10 * (j + 1 - 1)) ⟨b + d, j - c⟩ (onceStream c b d (j + 1))).2 =
        false
      rw [show onceStream c b d (j + 1) = ⟨some (b + d), [], some [], some []⟩ from by
            simp [onceStream, show ¬(j + 1 < c) from by omega],
         quiet_tickStep]
      simp [show ¬(5 ≤ j - c + 1) from by omega,
        show ¬(12 ≤ j - c + 1) from by omega]

lemma once_break5 (c b d elapsed : Nat) (hd : 1 ≤ d) :
    tickStep b elapsed ⟨b + d, 4⟩ (onceStream c b d (c + 5)) =
      (⟨b + d, 5⟩, true) := by
  rw [show onceStream c b d (c + 5) = ⟨some (b + d), [], some [], some []⟩ from by
        simp [onceStream, show ¬(c + 5 < c) from by omega],
     quiet_tickStep]
  simp
  omega

/-! ## Extraction lemmas -/

lemma foldl_len_mem (ts : List String) :
    ∀ t : String,
      ts.foldl (fun acc x => if acc.length < x.length then x else acc) t ∈ t :: ts := by
  induction ts with
  | nil => intro t; simp
  | cons y ys ih =>
    intro t
    have h := ih (if t.length < y.length then y else t)
    simp only [List.foldl_cons]
    rcases List.mem_cons.mp h with h1 | h1
    · rw [h1]
      by_cases hc : t.length < y.length
      · simp [hc]
      · simp [hc]
    · simp [List.mem_cons, h1]

lemma foldl_len_le (ts : List String) :
    ∀ (t x : String), x ∈ t :: ts →
      x.length ≤
        (ts.foldl (fun acc y => if acc.length < y.length then y else acc) t).length := by
  induction ts with
  | nil =>
    intro t x hx
    simp at hx
    simp [hx]
  | cons y ys ih =>
    intro t x hx
    simp only [List.foldl_cons]
    have hhead := ih (if t.length < y.length then y else t)
      (if t.length < y.length then y else t) (List.mem_cons_self _ _)
    have hsel : x = t ∨ x = y ∨ x ∈ ys := by simpa [List.mem_cons] using hx
    rcases hsel with h1 | h1 | h1
    · subst h1
      refine le_trans ?_ hhead
      by_cases hc : x.length < y.length
      · rw [if_pos hc]; exact Nat.le_of_lt hc
      · rw [if_neg hc]
    · subst h1
      refine le_trans ?_ hhead
      by_cases hc : t.length < x.length
      · rw [if_pos hc]
      · rw [if_neg hc]; omega
    · exact ih _ x (List.mem_cons_of_mem _ h1)

lemma maxByLen_mem (t : String) (ts : List String) : maxByLen (t :: ts) ∈ t :: ts :=
  foldl_len_mem ts t

lemma maxByLen_ge (t : String) (ts : List String) (x : String) (hx : x ∈ t :: ts) :
    x.length ≤ (maxByLen (t :: ts)).length :=
  foldl_len_le ts t x hx

lemma strategy1_cons_some_none (elems : List VisElem)
    (rest : List (Option (List VisElem))) (h : qualTexts 100 elems = []) :
    strategy1 (some elems :: rest) = strategy1 rest := by
  simp [strategy1, h]

lemma strategy1_cons_some_qual (elems : List VisElem)
    (rest : List (Option (List VisElem))) (t : String) (ts : List String)
    (h : qualTexts 100 elems = t :: ts) :
    strategy1 (some elems :: rest) = some (maxByLen (t :: ts)) := by
  simp [strategy1, h]

lemma strategy1_append_no_qual (pre : List (Option (List VisElem)))
    (tail : List (Option (List VisElem)))
    (hpre : ∀ r ∈ pre, ∀ es, r = some es → qualTexts 100 es = []) :
    strategy1 (pre ++ tail) = strategy1 tail := by
  induction pre with
  | nil => rfl
  | cons r pre ih =>
    have htail : ∀ r ∈ pre, ∀ es, r = some es → qualTexts 100 es = [] :=
      fun r hr es he => hpre r (List.mem_cons_of_mem _ hr) es he
    cases r with
    | none =>
      show strategy1 (pre ++ tail) = strategy1 tail
      exact ih htail
    | some es =>
      have h0 : qualTexts 100 es = [] :=
        hpre (some es) (List.mem_cons_self _ _) es rfl
      rw [List.cons_append, strategy1_cons_some_none es (pre ++ tail) h0]
      exact ih htail

lemma find_element_cons {α : Type} (page : String → Option α) (sel : String)
    (rest : List String) :
    find_element page (sel :: rest) =
      match page sel with
      | some e => some (e, sel)
      | none => find_element page rest := rfl

lemma find_element_append_none {α : Type} (page : String → Option α)
    (pre tail : List String) (hpre : ∀ s ∈ pre, page s = none) :
    find_element page (pre ++ tail) = find_element page tail := by
  induction pre with
  | nil => rfl
  | cons a pre ih =>
    have ha : page a = none := hpre a (List.mem_cons_self _ _)
    rw [List.cons_append, find_element_cons, ha]
    exact ih fun s hs => hpre s (List.mem_cons_of_mem _ hs)

lemma find_element_quick_cons {α : Type} (query : String → Option (Option α))
    (is_visible : α → Option Bool) (sel : String) (rest : List String) :
    find_element_quick query is_visible (sel :: rest) =
      match quickHit query is_visible sel with
      | some e => some (e, sel)
      | none => find_element_quick query is_visible rest := by
  cases hq : query sel with
  | none => simp [find_element_quick, quickHit, hq]
  | some o =>
    cases o with
    | none => simp [find_element_quick, quickHit, hq]
    | some e =>
      cases hv : is_visible e with
      | none => simp [find_element_quick, quickHit, hq, hv]
      | some b =>
        cases b with
        | false => simp [find_element_quick, quickHit, hq, hv]
        | true => simp [find_element_quick, quickHit, hq, hv]

lemma find_element_quick_append_none {α : Type} (query : String → Option (Option α))
    (is_visible : α → Option Bool) (pre tail : List String)
    (hpre : ∀ s ∈ pre, quickHit query is_visible s = none) :
    find_element_quick query is_visible (pre ++ tail) =
      find_element_quick query is_visible tail := by
  induction pre with
  | nil => rfl
  | cons a pre ih =>
    have ha : quickHit query is_visible a = none := hpre a (List.mem_cons_self _ _)
    rw [List.cons_append, find_element_quick_cons, ha]
    exact ih fun s hs => hpre s (List.mem_cons_of_mem _ hs)

lemma truthy_orElseTruthy_some (r : Option String) (t : String) (h : t ≠ "") :
    truthy (orElseTruthy r (some t)) = true := by
  unfold orElseTruthy
  by_cases hr : truthy r = true
  · rw [if_pos hr]; exact hr
  · rw [if_neg hr]
    simp [truthy, h]

lemma captureResults_success (initial last elapsed : Nat) (p : PageX) :
    (captureResults initial last elapsed p).success = truthy (extractReport p) := by
  cases h : truthy (extractReport p) <;> simp [captureResults, h]

lemma captureResults_sources_count (initial last elapsed : Nat) (p : PageX) :
    (captureResults initial last elapsed p).sources_count =
      (last : Int) - (initial : Int) := by
  cases h : truthy (extractReport p) <;> simp [captureResults, h]

lemma captureResults_elapsed (initial last elapsed : Nat) (p : PageX) :
    (captureResults initial last elapsed p).elapsed_seconds = elapsed := by
  cases h : truthy (extractReport p) <;> simp [captureResults, h]

lemma captureResults_error_of_falsy (initial last elapsed : Nat) (p : PageX)
    (h : truthy (extractReport p) = false) :
    (captureResults initial last elapsed p).error =
      some "Could not capture research results" := by
  simp [captureResults, h]

/-! ## Claim theorems -/

/-- Claim C1, counterexample: at a tick where the completion marker is visible,
busy is forced false and the stability counter was 0, but zero new auxiliary
items have appeared since the baseline (count 5 = baseline 5), the Oracle does
NOT complete at that tick: the marker sets the counter to 10, the primary rule
still requires a new item, and 10 is below the fallback threshold 12. -/
theorem marker_zero_new_items_does_not_complete :
    markerSeen markerTick.markerResult = true ∧
    sampleLoading markerTick.loaderResults markerTick.spinnerResult = false ∧
    tickStep 5 0 ⟨5, 0⟩ markerTick = (⟨5, 10⟩, false) := by decide

/-- Claim C1, amended: a visible completion marker forces busy to false and
the stability counter to 10 regardless of the counter's previous value, and
the Oracle completes at that same tick exactly when at least one new auxiliary
item has appeared since baseline; with zero new items it does not complete at
that tick. -/
theorem marker_overrides_busy_and_stability
    (initial elapsed : Nat) (s : LoopState) (t : Tick)
    (h : markerSeen t.markerResult = true) :
    (tickStep initial elapsed s t).1.stable_count = 10 ∧
    (tickStep initial elapsed s t).2 =
      decide (initial < (tickStep initial elapsed s t).1.last_sources_count) := by
  simp [tickStep, tickUpdate, h, primaryRule, fallbackRule]

/-- Claim C1, witness for the amended theorem: a concrete marker tick with a
new item (count 6 over baseline 5) completes at that tick even though a
loading indicator was visible. -/
theorem marker_overrides_busy_and_stability_witness :
    (tickStep 5 0 ⟨5, 0⟩ ⟨some 6, [some true], some [true], some [true]⟩).1.stable_count = 10 ∧
    (tickStep 5 0 ⟨5, 0⟩ ⟨some 6, [some true], some [true], some [true]⟩).2 =
      decide (5 < (tickStep 5 0 ⟨5, 0⟩
        ⟨some 6, [some true], some [true], some [true]⟩).1.last_sources_count) :=
  marker_overrides_busy_and_stability 5 0 ⟨5, 0⟩
    ⟨some 6, [some true], some [true], some [true]⟩ (by decide)

/-- Claim C2, counterexample: a run whose poll loop reaches the 600s deadline
with no completion rule ever satisfied (busy at every tick) still returns a
success outcome whenever the extraction chain finds text (here via the body
text), with no Timeout error. -/
theorem timed_out_loop_can_return_success :
    (pollLoop 600 10 0 busyTicks).completed = false ∧
    (run_deep_research 600 10 0 busyTicks reportPage).success = true ∧
    (run_deep_research 600 10 0 busyTicks reportPage).report = some longBody ∧
    (run_deep_research 600 10 0 busyTicks reportPage).error = none := by decide

/-- Claim C2, amended: after a timed-out poll loop, `run_deep_research` still
runs the extraction chain; the outcome's success equals whether extraction
yielded truthy text, it carries the partial item count and elapsed time from
the loop, and when extraction also fails the error is the extraction-failure
message — there is no Timeout error kind. -/
theorem timed_out_loop_outcome_from_extraction
    (timeout interval initial : Nat) (ticks : Nat → Tick) (p : PageX)
    (h : (pollLoop timeout interval initial ticks).completed = false) :
    (run_deep_research timeout interval initial ticks p).success =
      truthy (extractReport p) ∧
    (run_deep_research timeout interval initial ticks p).sources_count =
      ((pollLoop timeout interval initial ticks).state.last_sources_count : Int) -
        (initial : Int) ∧
    (run_deep_research timeout interval initial ticks p).elapsed_seconds =
      interval * ((pollLoop timeout interval initial ticks).exitTick - 1) ∧
    (truthy (extractReport p) = false →
      (run_deep_research timeout interval initial ticks p).error =
        some "Could not capture research results") :=
  ⟨captureResults_success initial _ _ p,
   captureResults_sources_count initial _ _ p,
   captureResults_elapsed initial _ _ p,
   fun hf => captureResults_error_of_falsy initial _ _ p hf⟩

/-- Claim C2, witness: the amended theorem applied to the concrete timed-out
run. -/
theorem timed_out_loop_outcome_from_extraction_witness :
    (run_deep_research 600 10 0 busyTicks reportPage).success =
      truthy (extractReport reportPage) :=
  (timed_out_loop_outcome_from_extraction 600 10 0 busyTicks reportPage (by decide)).1

/-- Claim C3: on a page where strategies 1-3 find nothing and the sources
panel yields a 50-character text, strategy 4 keeps that text even though it is
at most the 50-character threshold, the chain never falls through to strategy
5 (whose body text is long), and the outcome is a success carrying the short
text — the code assigns `report_text` before the threshold check.  This
evaluates the code at the failing input of claim C3. -/
theorem strategy4_keeps_text_at_most_threshold :
    fiftyChars.length = 50 ∧
    strategy4 shortPanelPage.sources_panel = some fiftyChars ∧
    extractReport shortPanelPage = some fiftyChars ∧
    (captureResults 0 0 0 shortPanelPage).success = true ∧
    (captureResults 0 0 0 shortPanelPage).report = some fiftyChars ∧
    shortPanelPage.bodyText = some longBody ∧
    200 < longBody.length := by decide

/-- Claim C4, counterexample: a stream where the count changes once above
baseline (5 to 8) but only at tick 13 completes at tick 12 via the fallback
rule, before the change and with zero new items — earlier than the claimed
first tick with five consecutive stable ticks after the change. -/
theorem late_change_completes_before_stability_window :
    pollLoop 600 10 5 (onceStream 13 5 3) = ⟨true, 12, ⟨5, 12⟩⟩ := by decide

/-- Claim C4, amended: for a stream whose count changes once (from `b` to
`b + d`, `d ≥ 1`) at tick `c` and then stays constant, never busy and with no
marker, and whose change occurs before the fallback rule can fire (`c ≤ 12`),
the Oracle completes exactly at tick `c + 5` — the first tick at which the
stability counter reaches 5 with a new item present — and never earlier. -/
theorem single_change_completes_at_change_tick_plus_five
    (c b d : Nat) (hc1 : 1 ≤ c) (hc : c ≤ 12) (hd : 1 ≤ d) :
    pollLoop 600 10 b (onceStream c b d) = ⟨true, c + 5, ⟨b + d, 5⟩⟩ := by
  show pollAux 600 10 b (onceStream c b d) (600 + 1) 1 ⟨b, 0⟩ =
    ⟨true, c + 5, ⟨b + d, 5⟩⟩
  rw [show (600 : Nat) + 1 = (c + 4) + (597 - c) from by omega]
  rw [pollAux_skip 600 10 b (onceStream c b d) (c + 4) (597 - c) 1 ⟨b, 0⟩
      (fun j hj => by omega)
      (fun j hj => once_no_break c b d hc1 hc hd j hj)]
  have hit : iterState b 10 (onceStream c b d) (c + 4) 1 ⟨b, 0⟩ = ⟨b + d, 4⟩ := by
    rw [once_iterState c b d hc1 hd (c + 4),
       if_neg (by omega : ¬(c + 4 < c)),
       show c + 4 - c = 4 from by omega]
  rw [hit, show (1 : Nat) + (c + 4) = c + 5 from by omega,
     show (597 : Nat) - c = (596 - c) + 1 from by omega, pollAux_succ,
     if_pos (by omega : 10 * (c + 5 - 1) < 600)]
  have hb5 := once_break5 c b d (10 * (c + 5 - 1)) hd
  simp only [stepBreak, stepState, hb5]
  simp

/-- Claim C4, witness for the amended theorem: the spec's own 5-to-8 stream,
changing at tick 2, completes at tick 7. -/
theorem single_change_completes_at_change_tick_plus_five_witness :
    pollLoop 600 10 5 (onceStream 2 5 3) = ⟨true, 2 + 5, ⟨5 + 3, 5⟩⟩ :=
  single_change_completes_at_change_tick_plus_five 2 5 3 (by omega) (by omega)
    (by omega)

/-- Claim C5: for a stream whose count never changes from the baseline `b`,
never busy and with no marker, the Oracle completes via the fallback rule
exactly at tick 12 — stability counter 12, elapsed 110 > 60 — and not before;
the primary rule never fires because the count stays at the baseline. -/
theorem no_change_completes_via_fallback_at_twelve (b : Nat) :
    pollLoop 600 10 b (flatStream b) = ⟨true, 12, ⟨b, 12⟩⟩ ∧
    fallbackRule (10 * (12 - 1)) ⟨b, 12⟩ false = true ∧
    (∀ (s : LoopState) (l : Bool), s.last_sources_count = b →
      primaryRule b s l = false) := by
  refine ⟨?_, rfl, ?_⟩
  · show pollAux 600 10 b (flatStream b) (600 + 1) 1 ⟨b, 0⟩ = ⟨true, 12, ⟨b, 12⟩⟩
    rw [show (600 : Nat) + 1 = 11 + 590 from by omega]
    rw [pollAux_skip 600 10 b (flatStream b) 11 590 1 ⟨b, 0⟩
        (fun j hj => by omega)
        (fun j hj => by
          rw [flat_iterState b j]
          show (tickStep b (10 * (1 + j - 1)) ⟨b, j⟩ (flatStream b (1 + j))).2 = false
          rw [show flatStream b (1 + j) = ⟨some b, [], some [], some []⟩ from rfl,
             quiet_tickStep]
          simp [show ¬(12 ≤ j + 1) from by omega])]
    rw [flat_iterState b 11, show (1 : Nat) + 11 = 12 from by omega,
       show (590 : Nat) = 589 + 1 from by omega, pollAux_succ,
       if_pos (by omega : 10 * (12 - 1) < 600)]
    have hbreak : tickStep b (10 * (12 - 1)) ⟨b, 11⟩ (flatStream b 12) =
        (⟨b, 12⟩, true) := by
      rw [show flatStream b 12 = ⟨some b, [], some [], some []⟩ from rfl,
         quiet_tickStep]
      simp
    simp [stepBreak, stepState, hbreak]
  · intro s l hls
    simp [primaryRule, hls]

/-- Claim C5, witness: the theorem at baseline 7, and the primary rule failing
at a concrete state with the baseline count. -/
theorem no_change_completes_via_fallback_at_twelve_witness :
    pollLoop 600 10 7 (flatStream 7) = ⟨true, 12, ⟨7, 12⟩⟩ ∧
    primaryRule 7 ⟨7, 9⟩ false = false :=
  ⟨(no_change_completes_via_fallback_at_twelve 7).1,
   (no_change_completes_via_fallback_at_twelve 7).2.2 ⟨7, 9⟩ false rfl⟩

/-- Claim C6: both Locator Resolver modes return the pair for the earliest
selector that resolves to a visible element — for `find_element`, the first
whose visible wait succeeds; for `find_element_quick`, the first whose query
returns an element reporting visible — and return the not-found value rather
than raising when no selector resolves. -/
theorem locator_resolver_first_visible_match :
    (∀ (α : Type) (page : String → Option α) (pre : List String) (sel : String)
        (rest : List String) (e : α),
        (∀ s ∈ pre, page s = none) → page sel = some e →
        find_element page (pre ++ sel :: rest) = some (e, sel)) ∧
    (∀ (α : Type) (page : String → Option α) (sels : List String),
        (∀ s ∈ sels, page s = none) → find_element page sels = none) ∧
    (∀ (α : Type) (query : String → Option (Option α)) (is_visible : α → Option Bool)
        (pre : List String) (sel : String) (rest : List String) (e : α),
        (∀ s ∈ pre, quickHit query is_visible s = none) →
        quickHit query is_visible sel = some e →
        find_element_quick query is_visible (pre ++ sel :: rest) = some (e, sel)) ∧
    (∀ (α : Type) (query : String → Option (Option α)) (is_visible : α → Option Bool)
        (sels : List String),
        (∀ s ∈ sels, quickHit query is_visible s = none) →
        find_element_quick query is_visible sels = none) := by
  refine ⟨?_, ?_, ?_, ?_⟩
  · intro α page pre sel rest e hpre hsel
    rw [find_element_append_none page pre (sel :: rest) hpre, find_element_cons,
       hsel]
  · intro α page sels h
    have h0 := find_element_append_none page sels [] h
    simpa using h0
  · intro α query is_visible pre sel rest e hpre hsel
    rw [find_element_quick_append_none query is_visible pre (sel :: rest) hpre,
       find_element_quick_cons, hsel]
  · intro α query is_visible sels h
    have h0 := find_element_quick_append_none query is_visible sels [] h
    simpa using h0

/-- Claim C6, witness: the theorem applied to concrete selector lists with a
decoy before the real match and to lists with no match at all. -/
theorem locator_resolver_first_visible_match_witness :
    find_element pageW (["a"] ++ "b" :: ["c"]) = some (1, "b") ∧
    find_element pageW ["a"] = none ∧
    find_element_quick queryW visW (["a"] ++ "b" :: ["c"]) = some (2, "b") ∧
    find_element_quick queryW visW ["a"] = none :=
  ⟨locator_resolver_first_visible_match.1 Nat pageW ["a"] "b" ["c"] 1
      (by intro s hs; simp at hs; subst hs; decide) (by decide),
   locator_resolver_first_visible_match.2.1 Nat pageW ["a"]
      (by intro s hs; simp at hs; subst hs; decide),
   locator_resolver_first_visible_match.2.2.1 Nat queryW visW ["a"] "b" ["c"] 2
      (by intro s hs; simp at hs; subst hs; decide) (by decide),
   locator_resolver_first_visible_match.2.2.2 Nat queryW visW ["a"]
      (by intro s hs; simp at hs; subst hs; decide)⟩

/-- Claim C7, counterexample: with a visible 101-character text under the
first chat selector and a visible 500-character text under the second,
strategy 1 returns the 101-character text — the longest within the first
matching selector — not the longest over all matching visible elements. -/
theorem strategy1_takes_first_selector_not_global_longest :
    strategy1 twoSelectorChat = some chatTextShort ∧
    chatTextLong ∈ qualTexts 100 [⟨true, chatTextLong⟩] ∧
    chatTextShort.length < chatTextLong.length := by decide

/-- Claim C7, amended: strategy 1 returns the longest text of length over 100
among the visible elements matched by the first selector (in priority order)
that yields any such text. -/
theorem strategy1_longest_within_first_matching_selector
    (pre : List (Option (List VisElem))) (elems : List VisElem)
    (rest : List (Option (List VisElem)))
    (hpre : ∀ r ∈ pre, ∀ es, r = some es → qualTexts 100 es = [])
    (hne : qualTexts 100 elems ≠ []) :
    strategy1 (pre ++ some elems :: rest) =
      some (maxByLen (qualTexts 100 elems)) ∧
    maxByLen (qualTexts 100 elems) ∈ qualTexts 100 elems ∧
    ∀ x ∈ qualTexts 100 elems,
      x.length ≤ (maxByLen (qualTexts 100 elems)).length := by
  obtain ⟨t, ts, hq⟩ : ∃ t ts, qualTexts 100 elems = t :: ts := by
    cases hq : qualTexts 100 elems with
    | nil => exact absurd hq hne
    | cons t ts => exact ⟨t, ts, rfl⟩
  refine ⟨?_, ?_, ?_⟩
  · rw [strategy1_append_no_qual pre (some elems :: rest) hpre,
       strategy1_cons_some_qual elems rest t ts hq, hq]
  · rw [hq]
    exact maxByLen_mem t ts
  · rw [hq]
    intro x hx
    exact maxByLen_ge t ts x hx

/-- Claim C7, witness: the amended theorem at a concrete page whose first chat
selector raised and whose second yields one qualifying text. -/
theorem strategy1_longest_within_first_matching_selector_witness :
    strategy1 ([none] ++ some [⟨true, chatTextShort⟩] :: []) =
      some (maxByLen (qualTexts 100 [⟨true, chatTextShort⟩])) :=
  (strategy1_longest_within_first_matching_selector [none] [⟨true, chatTextShort⟩]
    [] (by intro r hr es he; simp at hr; subst hr; exact Option.noConfusion he)
    (by decide)).1

/-- Claim C8, counterexample: a page whose body text is readable but empty
(and on which strategies 1-4 find nothing) produces the extraction-failure
outcome, because the empty string is falsy in the final `if not report_text`
check. -/
theorem empty_body_text_yields_failure_outcome :
    emptyPage.bodyText = some "" ∧
    (captureResults 0 0 0 emptyPage).success = false ∧
    (captureResults 0 0 0 emptyPage).error =
      some "Could not capture research results" := by decide

/-- Claim C8, amended: a page whose body text is readable and non-empty never
produces the extraction-failure outcome: strategy 5 has no length threshold,
so the outcome is a success. -/
theorem nonempty_body_text_never_extraction_failure
    (initial last elapsed : Nat) (p : PageX) (t : String)
    (hb : p.bodyText = some t) (ht : t ≠ "") :
    (captureResults initial last elapsed p).success = true := by
  rw [captureResults_success]
  show truthy (orElseTruthy (orElseTruthy (orElseTruthy (orElseTruthy
      (strategy1 p.chat) (strategy2 p.reports)) (strategy3 p.clickOk p.containers))
      (strategy4 p.sources_panel)) p.bodyText) = true
  rw [hb]
  exact truthy_orElseTruthy_some _ t ht

/-- Claim C8, witness: the amended theorem at the page with the 300-character
body text. -/
theorem nonempty_body_text_never_extraction_failure_witness :
    (captureResults 0 0 0 reportPage).success = true :=
  nonempty_body_text_never_extraction_failure 0 0 0 reportPage longBody rfl
    (by decide)

/-- Claim C9: a raised source-count query leaves the previous item count
unchanged and (absent a marker) the stability counter unchanged — no signal
this tick; a raised loading-indicator query contributes nothing to the busy
flag; and the loop can only end with a completion break or past the deadline:
whenever it ends uncompleted, the exit tick's elapsed time has reached the
timeout. -/
theorem sampling_errors_absorbed_per_tick :
    (∀ (initial elapsed : Nat) (s : LoopState) (t : Tick),
        t.countSample = none →
        (tickStep initial elapsed s t).1.last_sources_count =
          s.last_sources_count ∧
        (markerSeen t.markerResult = false →
          (tickStep initial elapsed s t).1.stable_count = s.stable_count)) ∧
    (∀ (ls : List (Option Bool)) (sp : Option (List Bool)),
        sampleLoading (none :: ls) sp = sampleLoading ls sp) ∧
    (∀ (timeout interval initial : Nat) (ticks : Nat → Tick),
        1 ≤ interval →
        (pollLoop timeout interval initial ticks).completed = false →
        timeout ≤
          interval * ((pollLoop timeout interval initial ticks).exitTick - 1)) := by
  refine ⟨?_, ?_, ?_⟩
  · intro initial elapsed s t hc
    by_cases hm : markerSeen t.markerResult = true
    · constructor
      · simp [tickStep, tickUpdate, countUpdate, hc, hm]
      · intro hmf
        rw [hmf] at hm
        simp at hm
    · constructor <;> simp [tickStep, tickUpdate, countUpdate, hc, hm]
  · intro ls sp
    simp [sampleLoading]
  · intro timeout interval initial ticks hi hc
    have hf : timeout ≤ interval * (1 - 1 + (timeout + 1)) := by
      have h1 : timeout + 1 ≤ interval * (timeout + 1) :=
        Nat.le_mul_of_pos_left (timeout + 1) hi
      have e : (1 : Nat) - 1 + (timeout + 1) = timeout + 1 := by omega
      rw [e]
      omega
    exact pollAux_exit timeout interval initial ticks (timeout + 1) 1
      ⟨initial, 0⟩ (le_refl 1) hf hc

/-- Claim C9, witness: a tick whose count query and one loading query raised,
and the all-busy run that ends only at the deadline. -/
theorem sampling_errors_absorbed_per_tick_witness :
    (tickStep 7 0 ⟨7, 3⟩ ⟨none, [none], none, some []⟩).1.last_sources_count = 7 ∧
    sampleLoading (none :: [some false]) (some []) =
      sampleLoading [some false] (some []) ∧
    600 ≤ 10 * ((pollLoop 600 10 0 busyTicks).exitTick - 1) :=
  ⟨(sampling_errors_absorbed_per_tick.1 7 0 ⟨7, 3⟩ ⟨none, [none], none, some []⟩
      rfl).1,
   sampling_errors_absorbed_per_tick.2.1 [some false] (some []),
   sampling_errors_absorbed_per_tick.2.2 600 10 0 busyTicks (by omega) (by decide)⟩

/-- Claim C10: the outcome's `sources_count` equals the last sampled source
count minus the baseline captured at entry, for both success and failure
outcomes; it does not depend on the page at capture time (it is not
re-sampled); and it can be negative — the concrete run whose count drops from
baseline 5 to 3 reports minus 2. -/
theorem sources_count_is_last_sample_minus_baseline :
    (∀ (timeout interval initial : Nat) (ticks : Nat → Tick) (p : PageX),
        (run_deep_research timeout interval initial ticks p).sources_count =
          ((pollLoop timeout interval initial ticks).state.last_sources_count : Int) -
            (initial : Int)) ∧
    (∀ (timeout interval initial : Nat) (ticks : Nat → Tick) (p q : PageX),
        (run_deep_research timeout interval initial ticks p).sources_count =
          (run_deep_research timeout interval initial ticks q).sources_count) ∧
    (run_deep_research 600 10 5 dropStream emptyPage).sources_count = -2 := by
  have key : ∀ (timeout interval initial : Nat) (ticks : Nat → Tick) (p : PageX),
      (run_deep_research timeout interval initial ticks p).sources_count =
        ((pollLoop timeout interval initial ticks).state.last_sources_count : Int) -
          (initial : Int) :=
    fun timeout interval initial ticks p =>
      captureResults_sources_count initial _ _ p
  refine ⟨key, ?_, ?_⟩
  · intro timeout interval initial ticks p q
    rw [key, key]
  · decide

end DeepResearch
